import Mathlib

/-!
Verification of the streaming tool-call handler in `raven/ai/handler.py`
(yt-easytouch/raven). The Python handler is shallowly embedded: external
collaborators (the frappe ORM, the `json` module, the OpenAI SDK, user
custom functions) appear as an explicit environment of oracles, the
database as an explicit state value with a savepoint stack, and every
observable action (realtime publications, messages sent, function
invocations, savepoints, rollbacks, output submission) as an entry in an
effect trace. The handler functions are translated control-flow-faithfully
from the source.
-/

namespace Raven

/-- A JSON value, as produced by Python's `json` module. -/
inductive Json where
  | null : Json
  | str (s : String) : Json
  | num (n : Int) : Json
  | bool (b : Bool) : Json
  | arr (items : List Json) : Json
  | obj (fields : List (String × Json)) : Json
deriving Repr

mutual

/-- `json.dumps` with its default separators: renders a JSON value to a
string. (String escaping is not modelled; none of the claims depend on
it.) -/
def jsonDumps : Json → String
  | .null => "null"
  | .str s => "\"" ++ s ++ "\""
  | .num n => toString n
  | .bool b => if b then "true" else "false"
  | .arr items => "[" ++ jsonDumpsList items ++ "]"
  | .obj fields => "\x7b" ++ jsonDumpsFields fields ++ "\x7d"

/-- Renders a comma-separated list of JSON values. -/
def jsonDumpsList : List Json → String
  | [] => ""
  | [x] => jsonDumps x
  | x :: xs => jsonDumps x ++ ", " ++ jsonDumpsList xs

/-- Renders a comma-separated list of JSON object fields. -/
def jsonDumpsFields : List (String × Json) → String
  | [] => ""
  | [(k, v)] => "\"" ++ k ++ "\": " ++ jsonDumps v
  | (k, v) :: fs => "\"" ++ k ++ "\": " ++ jsonDumps v ++ ", " ++ jsonDumpsFields fs

end

/-- `args.get(key)` on a parsed argument dictionary: `some v` when the key
is present, `none` (Python `None`) otherwise; non-objects have no keys. -/
def jsonGet (j : Json) (key : String) : Option Json :=
  match j with
  | .obj fields => (fields.find? (fun p => p.1 == key)).map (fun p => p.2)
  | _ => none

/-- Python `str()` of an `args.get(...)` result as interpolated by
`"...".format(...)`: `None` prints as "None". -/
def pyFormatArg (o : Option Json) : String :=
  match o with
  | none => "None"
  | some (.str s) => s
  | some j => jsonDumps j

/-- One tool-call request from a `thread.run.requires_action` event
(`tool.id`, `tool.function.name`, `tool.function.arguments`). -/
structure ToolCall where
  id : String
  function_name : String
  function_arguments : String
deriving Repr, DecidableEq

/-- One entry of the `tool_outputs` list assembled by
`handle_requires_action`. -/
structure ToolOutput where
  tool_call_id : String
  output : String
deriving Repr, DecidableEq

/-- A `Raven AI Function` document as fetched by
`frappe.get_cached_doc("Raven AI Function", name)`: the fields the handler
reads. -/
structure RavenAIFunction where
  type : String
  function_path : String
  pass_parameters_as_json : Bool
  reference_doctype : String
deriving Repr, DecidableEq

/-- The bot configuration fields the handler reads. -/
structure Bot where
  name : String
  allow_bot_to_write_documents : Bool
deriving Repr, DecidableEq

/-- The provider-side run object (`self.current_run`): the fields used by
`submit_tool_outputs`. -/
structure Run where
  id : String
  thread_id : String
deriving Repr, DecidableEq

/-- The payload of a `thread.run.requires_action` event (`event.data`):
its run id, the thread it belongs to, and
`required_action.submit_tool_outputs.tool_calls`. -/
structure RequiresActionData where
  id : String
  thread_id : String
  tool_calls : List ToolCall
deriving Repr, DecidableEq

/-- A provider stream event as seen by `on_event`. -/
structure Event where
  event : String
  data : RequiresActionData
deriving Repr, DecidableEq

/-- One tool entry of a completed run step's `tool_calls` details. -/
structure RunStepTool where
  type : String
deriving Repr, DecidableEq

/-- `run_step.step_details`: the detail kind tag and, for tool-call steps,
the list of tools invoked. -/
structure StepDetails where
  type : String
  tool_calls : List RunStepTool
deriving Repr, DecidableEq

/-- The frappe database as the handler touches it: an abstract persisted
state of type `σ` plus the named-savepoint stack maintained by
`frappe.db.savepoint` / `frappe.db.rollback(save_point=...)`. -/
structure DB (σ : Type) where
  state : σ
  savepoints : List (String × σ)
deriving Repr

/-- `frappe.db.savepoint(name)`: remember the current state under `name`. -/
def dbSavepoint {σ : Type} (db : DB σ) (name : String) : DB σ :=
  { db with savepoints := (name, db.state) :: db.savepoints }

/-- `frappe.db.rollback(save_point=name)`: restore the state remembered
under `name` (discarding savepoints taken after it); a no-op if the name
is unknown. -/
def dbRollback {σ : Type} (db : DB σ) (name : String) : DB σ :=
  match db.savepoints.dropWhile (fun p => p.1 != name) with
  | [] => db
  | (_, s) :: rest => { state := s, savepoints := rest }

/-- An observable action of the handler: realtime publications, the final
message delivery, custom-function invocations, savepoint management, the
built-in document operations, and output submission. -/
inductive Effect where
  | publish (text : String) (channel_id : String) (bot : String) : Effect
  | publishClear (channel_id : String) : Effect
  | sendMessage (channel_id : String) (text : String) : Effect
  | invokeFn (path : String) (asJson : Bool) (args : Json) : Effect
  | savepoint (name : String) : Effect
  | rollback (name : String) : Effect
  | docOp (op : String) (doctype : String) (args : Json) : Effect
  | submitOutputs (thread_id : String) (run_id : String)
      (outs : List ToolOutput) : Effect
deriving Repr

/-- The external world: the function registry
(`frappe.get_cached_doc("Raven AI Function", ·)`, `none` meaning
`DoesNotExistError`), `json.loads` on the raw argument payload, the
user's custom functions reached through `frappe.get_attr` (stateful:
they may read and mutate the persisted state, and may raise), and the
four built-in document operations. -/
structure Env (σ : Type) where
  getCachedDoc : String → Option RavenAIFunction
  jsonLoads : String → Except String Json
  invokeCustom : String → Bool → Json → σ → Except String Json × σ
  get_document : String → Json → σ → Except String Json × σ
  get_documents : String → Json → σ → Except String Json × σ
  delete_document : String → Json → σ → Except String Json × σ
  delete_documents : String → Json → σ → Except String Json × σ

/-- The error output appended by the `except Exception` handler of
`handle_requires_action`: `json.dumps({"message": ..., "error": str(e)})`
paired with the call id. -/
def errorOutput (callId : String) (e : String) : ToolOutput :=
  { tool_call_id := callId,
    output := jsonDumps (.obj
      [("message", .str "There was an error in the function call"),
       ("error", .str e)]) }

/-- The body of the `if function.type == ...` chain of
`handle_requires_action` (handler.py lines 87–125): starting from
`function_output = {}`, dispatch on the function kind; the custom-function
branch honors `pass_parameters_as_json` and, when the bot may not write,
wraps the call in `frappe.db.savepoint(run_id + "_" + tool.id)` followed —
only on normal return — by `frappe.db.rollback(save_point=...)`; the
document branches publish a progress event and call the corresponding
built-in. Returns the function result (`.error` = a raised exception),
the database, and the effect trace. -/
def runFunctionByType {σ : Type} (env : Env σ) (bot : Bot)
    (channel_id run_id : String) (tool : ToolCall)
    (function : RavenAIFunction) (args : Json) (db : DB σ) :
    Except String Json × DB σ × List Effect :=
  if function.type = "Custom Function" then
    if bot.allow_bot_to_write_documents then
      let r := env.invokeCustom function.function_path
        function.pass_parameters_as_json args db.state
      (r.1, { db with state := r.2 },
        [.invokeFn function.function_path function.pass_parameters_as_json args])
    else
      let sp := run_id ++ "_" ++ tool.id
      let db1 := dbSavepoint db sp
      let r := env.invokeCustom function.function_path
        function.pass_parameters_as_json args db1.state
      match r.1 with
      | .ok v =>
        (.ok v, dbRollback { db1 with state := r.2 } sp,
          [.savepoint sp,
           .invokeFn function.function_path function.pass_parameters_as_json args,
           .rollback sp])
      | .error e =>
        (.error e, { db1 with state := r.2 },
          [.savepoint sp,
           .invokeFn function.function_path function.pass_parameters_as_json args])
  else if function.type = "Get Document" then
    let text := "Fetching " ++ function.reference_doctype ++ " "
      ++ pyFormatArg (jsonGet args "document_id") ++ "..."
    let r := env.get_document function.reference_doctype args db.state
    (r.1, { db with state := r.2 },
      [.publish text channel_id bot.name,
       .docOp "get_document" function.reference_doctype args])
  else if function.type = "Get Multiple Documents" then
    let text := "Fetching multiple " ++ function.reference_doctype ++ "s..."
    let r := env.get_documents function.reference_doctype args db.state
    (r.1, { db with state := r.2 },
      [.publish text channel_id bot.name,
       .docOp "get_documents" function.reference_doctype args])
  else if function.type = "Delete Document" then
    let text := "Deleting " ++ function.reference_doctype ++ " "
      ++ pyFormatArg (jsonGet args "document_id") ++ "..."
    let r := env.delete_document function.reference_doctype args db.state
    (r.1, { db with state := r.2 },
      [.publish text channel_id bot.name,
       .docOp "delete_document" function.reference_doctype args])
  else if function.type = "Delete Multiple Documents" then
    let text := "Deleting multiple " ++ function.reference_doctype ++ "s..."
    let r := env.delete_documents function.reference_doctype args db.state
    (r.1, { db with state := r.2 },
      [.publish text channel_id bot.name,
       .docOp "delete_documents" function.reference_doctype args])
  else
    (.ok (.obj []), db, [])

/-- The `try: ... except Exception` body of one loop iteration of
`handle_requires_action` for a call whose function name resolved:
`json.loads` the raw arguments, run the kind dispatch, and build either
the success output `json.dumps(function_output)` or the captured-error
output for this call id. -/
def processResolved {σ : Type} (env : Env σ) (bot : Bot)
    (channel_id run_id : String) (tool : ToolCall)
    (function : RavenAIFunction) (db : DB σ) :
    ToolOutput × DB σ × List Effect :=
  match env.jsonLoads tool.function_arguments with
  | .error e => (errorOutput tool.id e, db, [])
  | .ok args =>
    let r := runFunctionByType env bot channel_id run_id tool function args db
    match r.1 with
    | .ok v => ({ tool_call_id := tool.id, output := jsonDumps v }, r.2.1, r.2.2)
    | .error e => (errorOutput tool.id e, r.2.1, r.2.2)

/-- The outcome of the `for tool in ...tool_calls` loop: `aborted` when the
`return` on an unresolved function name fired (the outputs accumulated so
far are dropped and nothing is submitted), `completed` when the loop ran
through the whole batch. -/
inductive LoopResult (σ : Type) where
  | aborted (outs : List ToolOutput) (db : DB σ) (fx : List Effect)
  | completed (outs : List ToolOutput) (db : DB σ) (fx : List Effect)
deriving Repr

/-- The `for tool in data.required_action.submit_tool_outputs.tool_calls`
loop of `handle_requires_action`: resolve each name via
`frappe.get_cached_doc` — on `DoesNotExistError`, append
"Function not found" for that call id and return from the whole method —
otherwise process the call and continue. -/
def handleLoop {σ : Type} (env : Env σ) (bot : Bot)
    (channel_id run_id : String) : List ToolCall → DB σ → LoopResult σ
  | [], db => .completed [] db []
  | tool :: rest, db =>
    match env.getCachedDoc tool.function_name with
    | none =>
      .aborted [{ tool_call_id := tool.id, output := "Function not found" }] db []
    | some function =>
      let r := processResolved env bot channel_id run_id tool function db
      match handleLoop env bot channel_id run_id rest r.2.1 with
      | .completed outs db3 fx2 => .completed (r.1 :: outs) db3 (r.2.2 ++ fx2)
      | .aborted outs db3 fx2 => .aborted (r.1 :: outs) db3 (r.2.2 ++ fx2)

/-- `handle_requires_action(data, run_id)`: run the dispatch loop over the
batch; when it completes, `submit_tool_outputs(tool_outputs, run_id)`
submits the batch against `self.current_run.thread_id` and
`self.current_run.id` and the nested stream publishes a "thinking"
notification; when the loop returned early, nothing is submitted. -/
def handle_requires_action {σ : Type} (env : Env σ) (bot : Bot)
    (channel_id : String) (current_run : Run) (data : RequiresActionData)
    (run_id : String) (db : DB σ) : List ToolOutput × DB σ × List Effect :=
  match handleLoop env bot channel_id run_id data.tool_calls db with
  | .aborted outs db2 fx => (outs, db2, fx)
  | .completed outs db2 fx =>
    (outs, db2,
      fx ++ [.submitOutputs current_run.thread_id current_run.id outs,
             .publish "Raven AI is thinking..." channel_id bot.name])

/-- `on_event`: react only to `thread.run.requires_action`, extracting the
run id from the event data and delegating to `handle_requires_action`. -/
def on_event {σ : Type} (env : Env σ) (bot : Bot) (channel_id : String)
    (current_run : Run) (ev : Event) (db : DB σ) :
    List ToolOutput × DB σ × List Effect :=
  if ev.event = "thread.run.requires_action" then
    handle_requires_action env bot channel_id current_run ev.data ev.data.id db
  else ([], db, [])

/-- `on_run_step_done`: for a tool-call step, walk the tools and publish
"Running code..." for a code interpreter and "Searching file contents..."
for file search (two independent `if`s, no other case); for any other step
kind publish one "Raven AI is thinking...". -/
def on_run_step_done (bot : Bot) (channel_id : String)
    (details : StepDetails) : List Effect :=
  if details.type = "tool_calls" then
    details.tool_calls.flatMap (fun tool =>
      (if tool.type = "code_interpreter" then
        [Effect.publish "Running code..." channel_id bot.name] else [])
      ++ (if tool.type = "file_search" then
        [Effect.publish "Searching file contents..." channel_id bot.name] else []))
  else
    [Effect.publish "Raven AI is thinking..." channel_id bot.name]

/-- `on_text_done(text)`: `bot.send_message(channel_id, text.value)` then
`frappe.publish_realtime("ai_event_clear", {channel_id}, ...)`. -/
def on_text_done (bot : Bot) (channel_id : String) (text : String) :
    List Effect :=
  [Effect.sendMessage channel_id text, Effect.publishClear channel_id]

/-- Recognizes the output-submission effect. -/
def Effect.isSubmit : Effect → Bool
  | .submitOutputs _ _ _ => true
  | _ => false

/-- Recognizes a progress-notification publication. -/
def Effect.isPublish : Effect → Bool
  | .publish _ _ _ => true
  | _ => false

/-- Recognizes a custom-function invocation effect. -/
def Effect.isInvoke : Effect → Bool
  | .invokeFn _ _ _ => true
  | _ => false

/-- Recognizes the message delivery to the channel. -/
def Effect.isSend : Effect → Bool
  | .sendMessage _ _ => true
  | _ => false

/-- Recognizes the "clear" publication. -/
def Effect.isClear : Effect → Bool
  | .publishClear _ => true
  | _ => false

/-! ## Helper lemmas about the dispatch loop -/

/-- The effect trace carried by a loop outcome. -/
def LoopResult.fx {σ : Type} : LoopResult σ → List Effect
  | .aborted _ _ f => f
  | .completed _ _ f => f

/-- The outputs carried by a loop outcome. -/
def LoopResult.outs {σ : Type} : LoopResult σ → List ToolOutput
  | .aborted o _ _ => o
  | .completed o _ _ => o

/-- Splitting the dispatch loop at an append: an early return inside the
first segment hides the second segment entirely; otherwise the second
segment continues from the database the first one produced. -/
theorem handleLoop_append {σ : Type} (env : Env σ) (bot : Bot)
    (channel_id run_id : String) (l1 l2 : List ToolCall) (db : DB σ) :
    handleLoop env bot channel_id run_id (l1 ++ l2) db
      = match handleLoop env bot channel_id run_id l1 db with
        | .aborted o d f => .aborted o d f
        | .completed o d f =>
          match handleLoop env bot channel_id run_id l2 d with
          | .completed o2 d2 f2 => .completed (o ++ o2) d2 (f ++ f2)
          | .aborted o2 d2 f2 => .aborted (o ++ o2) d2 (f ++ f2) := by
  induction l1 generalizing db with
  | nil =>
    simp only [List.nil_append, handleLoop]
    cases handleLoop env bot channel_id run_id l2 db <;> simp
  | cons tool rest ih =>
    simp only [List.cons_append, handleLoop]
    cases henv : env.getCachedDoc tool.function_name with
    | none => rfl
    | some fn =>
      simp only [List.append_eq]
      rw [ih]
      cases hr : handleLoop env bot channel_id run_id rest
          (processResolved env bot channel_id run_id tool fn db).2.1 with
      | aborted o d f => simp [hr]
      | completed o d f =>
        cases hl : handleLoop env bot channel_id run_id l2 d with
        | completed o2 d2 f2 => simp [hr, hl]
        | aborted o2 d2 f2 => simp [hr, hl]

/-- When every name in the batch resolves, the loop completes and yields
one output per call, its `tool_call_id` being that call's id. -/
theorem handleLoop_completes {σ : Type} (env : Env σ) (bot : Bot)
    (channel_id run_id : String) (batch : List ToolCall) (db : DB σ)
    (h : ∀ t ∈ batch, (env.getCachedDoc t.function_name).isSome) :
    ∃ outs db2 fx,
      handleLoop env bot channel_id run_id batch db = .completed outs db2 fx
      ∧ outs.map (fun o => o.tool_call_id) = batch.map (fun t => t.id) := by
  induction batch generalizing db with
  | nil => exact ⟨[], db, [], rfl, rfl⟩
  | cons tool rest ih =>
    obtain ⟨fn, hfn⟩ := Option.isSome_iff_exists.mp
      (h tool (List.mem_cons_self tool rest))
    obtain ⟨outs, db2, fx, hloop, hmap⟩ :=
      ih (processResolved env bot channel_id run_id tool fn db).2.1
        (fun t ht => h t (List.mem_cons_of_mem _ ht))
    refine ⟨(processResolved env bot channel_id run_id tool fn db).1 :: outs, db2,
      (processResolved env bot channel_id run_id tool fn db).2.2 ++ fx, ?_, ?_⟩
    · simp only [handleLoop, hfn, hloop]
    · have hid : (processResolved env bot channel_id run_id tool fn db).1.tool_call_id
          = tool.id := by
        unfold processResolved
        cases env.jsonLoads tool.function_arguments with
        | error e => rfl
        | ok args =>
          simp only
          cases (runFunctionByType env bot channel_id run_id tool fn args db).1
            <;> rfl
      simpa [hid] using hmap

/-- `runFunctionByType` never emits the output-submission effect. -/
theorem runFunctionByType_no_submit {σ : Type} (env : Env σ) (bot : Bot)
    (channel_id run_id : String) (tool : ToolCall) (fn : RavenAIFunction)
    (args : Json) (db : DB σ) :
    ((runFunctionByType env bot channel_id run_id tool fn args db).2.2).filter
      Effect.isSubmit = [] := by
  unfold runFunctionByType
  by_cases h1 : fn.type = "Custom Function"
  · simp only [h1, if_pos rfl]
    by_cases hw : bot.allow_bot_to_write_documents
    · simp [hw, Effect.isSubmit]
    · simp only [hw, if_false]
      cases (env.invokeCustom fn.function_path fn.pass_parameters_as_json args
          (dbSavepoint db (run_id ++ "_" ++ tool.id)).state).1
        <;> simp [Effect.isSubmit]
  · by_cases h2 : fn.type = "Get Document"
    · simp [h1, h2, Effect.isSubmit]
    · by_cases h3 : fn.type = "Get Multiple Documents"
      · simp [h1, h2, h3, Effect.isSubmit]
      · by_cases h4 : fn.type = "Delete Document"
        · simp [h1, h2, h3, h4, Effect.isSubmit]
        · by_cases h5 : fn.type = "Delete Multiple Documents"
          · simp [h1, h2, h3, h4, h5, Effect.isSubmit]
          · simp [h1, h2, h3, h4, h5]

/-- `processResolved` never emits the output-submission effect. -/
theorem processResolved_no_submit {σ : Type} (env : Env σ) (bot : Bot)
    (channel_id run_id : String) (tool : ToolCall) (fn : RavenAIFunction)
    (db : DB σ) :
    ((processResolved env bot channel_id run_id tool fn db).2.2).filter
      Effect.isSubmit = [] := by
  unfold processResolved
  cases env.jsonLoads tool.function_arguments with
  | error e => rfl
  | ok args =>
    simp only
    have h := runFunctionByType_no_submit env bot channel_id run_id tool fn args db
    cases (runFunctionByType env bot channel_id run_id tool fn args db).1
      <;> simpa using h

/-- The loop body never emits the output-submission effect: submission
happens only after the loop, in `submit_tool_outputs`. -/
theorem handleLoop_no_submit {σ : Type} (env : Env σ) (bot : Bot)
    (channel_id run_id : String) (batch : List ToolCall) (db : DB σ) :
    ((handleLoop env bot channel_id run_id batch db).fx).filter
      Effect.isSubmit = [] := by
  induction batch generalizing db with
  | nil => rfl
  | cons tool rest ih =>
    simp only [handleLoop]
    cases henv : env.getCachedDoc tool.function_name with
    | none => rfl
    | some fn =>
      simp only
      have h1 := processResolved_no_submit env bot channel_id run_id tool fn db
      have h2 := ih (processResolved env bot channel_id run_id tool fn db).2.1
      cases hrest : handleLoop env bot channel_id run_id rest
          (processResolved env bot channel_id run_id tool fn db).2.1 with
      | completed o2 d2 f2 =>
        rw [hrest] at h2
        simp only [LoopResult.fx] at h2 ⊢
        simp [List.filter_append, h1, h2]
      | aborted o2 d2 f2 =>
        rw [hrest] at h2
        simp only [LoopResult.fx] at h2 ⊢
        simp [List.filter_append, h1, h2]

/-- The effect trace of a resolved call whose payload parsed is the trace
of the kind dispatch, whether the result was a success or an error. -/
theorem processResolved_fx_of_ok {σ : Type} (env : Env σ) (bot : Bot)
    (channel_id run_id : String) (tool : ToolCall) (fn : RavenAIFunction)
    (args : Json) (db : DB σ)
    (hargs : env.jsonLoads tool.function_arguments = .ok args) :
    (processResolved env bot channel_id run_id tool fn db).2.2
      = (runFunctionByType env bot channel_id run_id tool fn args db).2.2 := by
  unfold processResolved
  rw [hargs]
  cases h : (runFunctionByType env bot channel_id run_id tool fn args db).1
    <;> simp [h]

/-- A concrete environment over `Nat` persisted state, used to exercise
the theorems on explicit inputs: a custom function, a document getter, an
unknown name, and one function of an unrecognized kind. -/
def sampleEnv : Env Nat where
  getCachedDoc n :=
    if n = "calc_sum" then
      some { type := "Custom Function", function_path := "app.calc_sum",
             pass_parameters_as_json := true, reference_doctype := "" }
    else if n = "get_emp" then
      some { type := "Get Document", function_path := "",
             pass_parameters_as_json := false, reference_doctype := "Employee" }
    else if n = "send_email" then
      some { type := "Send Email", function_path := "app.send_email",
             pass_parameters_as_json := false, reference_doctype := "" }
    else if n = "calc_bad" then
      some { type := "Custom Function", function_path := "app.calc_bad",
             pass_parameters_as_json := true, reference_doctype := "" }
    else none
  jsonLoads s :=
    if s = "bad json" then .error "Expecting value" else .ok (.obj [])
  invokeCustom p _ _ s :=
    if p = "app.calc_sum" then (.ok (.num 7), s) else (.error "AttributeError", s)
  get_document _ _ s :=
    (.ok (.obj [("id", .str "DOC-1"), ("name", .str "Alice")]), s)
  get_documents _ _ s := (.ok (.arr []), s)
  delete_document _ _ s := (.ok (.str "ok"), s + 1)
  delete_documents _ _ s := (.ok (.str "ok"), s + 1)

/-! ## The claims -/

/-- Claim C7: on a final text event with value `T`, exactly one message
containing `T` is delivered to the bound channel, followed by exactly one
clear publication addressed to that channel, in that order. -/
theorem C7_final_text_message_then_clear (bot : Bot) (channel_id T : String) :
    (on_text_done bot channel_id T).filter Effect.isSend
      = [Effect.sendMessage channel_id T]
    ∧ (on_text_done bot channel_id T).filter Effect.isClear
      = [Effect.publishClear channel_id]
    ∧ on_text_done bot channel_id T
      = [Effect.sendMessage channel_id T, Effect.publishClear channel_id] :=
  ⟨rfl, rfl, rfl⟩

/-- Claim C8 fails as stated: a completed tool-call step whose single tool
belongs to another category (here "function") publishes no notification at
all, although the claim promises one progress notification per tool
invoked. -/
theorem C8_counterexample :
    on_run_step_done { name := "aibot", allow_bot_to_write_documents := false }
      "channel_1" { type := "tool_calls", tool_calls := [{ type := "function" }] }
      = []
    ∧ (StepDetails.mk "tool_calls" [{ type := "function" }]).tool_calls.length
      = 1 :=
  ⟨rfl, rfl⟩

/-- Claim C8 (amended): on a completed non-tool-call step exactly one
generic "thinking" notification is published; on a tool-call step one
notification is published per code-interpreter tool ("Running code...")
and per file-search tool ("Searching file contents...") — tools of other
categories publish nothing. -/
theorem C8_amended_step_notifications (bot : Bot) (channel_id : String)
    (details : StepDetails) :
    (details.type ≠ "tool_calls" →
      on_run_step_done bot channel_id details
        = [Effect.publish "Raven AI is thinking..." channel_id bot.name])
    ∧ (details.type = "tool_calls" →
        (on_run_step_done bot channel_id details).length
          = details.tool_calls.countP (fun t => t.type == "code_interpreter")
            + details.tool_calls.countP (fun t => t.type == "file_search")
        ∧ ∀ e ∈ on_run_step_done bot channel_id details,
            e = Effect.publish "Running code..." channel_id bot.name
            ∨ e = Effect.publish "Searching file contents..." channel_id bot.name) := by
  constructor
  · intro h
    simp [on_run_step_done, h]
  · intro h
    unfold on_run_step_done
    rw [if_pos h]
    constructor
    · induction details.tool_calls with
      | nil => rfl
      | cons t ts ih =>
        by_cases h1 : t.type = "code_interpreter"
          <;> by_cases h2 : t.type = "file_search"
        · rw [h1] at h2; exact absurd h2 (by decide)
        · simp [h1, h2, List.countP_cons, beq_iff_eq, ih]
          omega
        · simp [h1, h2, List.countP_cons, beq_iff_eq, ih]
          omega
        · simp [h1, h2, List.countP_cons, beq_iff_eq, ih]
    · intro e he
      simp only [List.mem_flatMap] at he
      obtain ⟨t, ht, he⟩ := he
      by_cases h1 : t.type = "code_interpreter"
        <;> by_cases h2 : t.type = "file_search"
      · rw [h1] at h2; exact absurd h2 (by decide)
      · simp [h1, h2] at he
        exact Or.inl he
      · simp [h1, h2] at he
        exact Or.inr he
      · simp [h1, h2] at he

/-- Witness for the amended C8 at concrete inputs: a non-tool-call step
publishes exactly the generic thinking notification. -/
theorem C8_amended_step_notifications_witness :
    on_run_step_done { name := "aibot", allow_bot_to_write_documents := false }
      "channel_1" { type := "message_creation", tool_calls := [] }
      = [Effect.publish "Raven AI is thinking..." "channel_1" "aibot"] :=
  (C8_amended_step_notifications
    { name := "aibot", allow_bot_to_write_documents := false } "channel_1"
    { type := "message_creation", tool_calls := [] }).1 (by decide)

/-- Claim C2: when every function name in a pause batch resolves, the
dispatch loop completes with exactly one output per call, and the output
batch's `tool_call_id` list is exactly the request batch's call-id list
(hence the two sets coincide, with no additions and no omissions). -/
theorem C2_resolvable_batch_output_ids (σ : Type) (env : Env σ) (bot : Bot)
    (channel_id run_id : String) (batch : List ToolCall) (db : DB σ)
    (h : ∀ t ∈ batch, (env.getCachedDoc t.function_name).isSome) :
    ∃ outs db2 fx,
      handleLoop env bot channel_id run_id batch db = .completed outs db2 fx
      ∧ outs.length = batch.length
      ∧ outs.map (fun o => o.tool_call_id) = batch.map (fun t => t.id) := by
  obtain ⟨outs, db2, fx, h1, h2⟩ :=
    handleLoop_completes env bot channel_id run_id batch db h
  exact ⟨outs, db2, fx, h1, by simpa using congrArg List.length h2, h2⟩

/-- Witness for C2: a two-call batch over the sample environment yields
two outputs with call ids "c1", "c2". -/
theorem C2_resolvable_batch_output_ids_witness :
    ∃ outs db2 fx,
      handleLoop sampleEnv { name := "aibot", allow_bot_to_write_documents := true }
        "channel_1" "run_1"
        [{ id := "c1", function_name := "calc_sum", function_arguments := "x" },
         { id := "c2", function_name := "get_emp", function_arguments := "y" }]
        { state := 0, savepoints := [] } = .completed outs db2 fx
      ∧ outs.length = 2
      ∧ outs.map (fun o => o.tool_call_id) = ["c1", "c2"] := by
  obtain ⟨outs, db2, fx, h1, h2, h3⟩ :=
    C2_resolvable_batch_output_ids Nat sampleEnv
      { name := "aibot", allow_bot_to_write_documents := true } "channel_1" "run_1"
      [{ id := "c1", function_name := "calc_sum", function_arguments := "x" },
       { id := "c2", function_name := "get_emp", function_arguments := "y" }]
      { state := 0, savepoints := [] } (by decide)
  exact ⟨outs, db2, fx, h1, h2, by simpa using h3⟩

/-- Claim C4: a call whose function name does not resolve yields exactly
one appended output — the fixed "Function not found" text under its call
id — after the outputs of the already-processed prefix, and the loop
processes nothing further: the result does not depend on the requests
after the unresolved one. -/
theorem C4_unresolved_aborts_batch (σ : Type) (env : Env σ) (bot : Bot)
    (channel_id run_id : String) (pre rest : List ToolCall) (bad : ToolCall)
    (db : DB σ)
    (hpre : ∀ t ∈ pre, (env.getCachedDoc t.function_name).isSome)
    (hbad : env.getCachedDoc bad.function_name = none) :
    ∃ preOuts db2 fx,
      handleLoop env bot channel_id run_id (pre ++ bad :: rest) db
        = .aborted
            (preOuts ++ [{ tool_call_id := bad.id, output := "Function not found" }])
            db2 fx
      ∧ preOuts.length = pre.length
      ∧ ∀ rest2, handleLoop env bot channel_id run_id (pre ++ bad :: rest2) db
          = handleLoop env bot channel_id run_id (pre ++ bad :: rest) db := by
  obtain ⟨outs, db2, fx, h1, h2⟩ :=
    handleLoop_completes env bot channel_id run_id pre db hpre
  have hbadstep : ∀ (d : DB σ) (r : List ToolCall),
      handleLoop env bot channel_id run_id (bad :: r) d
        = .aborted [{ tool_call_id := bad.id, output := "Function not found" }]
            d [] := by
    intro d r
    simp [handleLoop, hbad]
  refine ⟨outs, db2, fx ++ [], ?_, ?_, ?_⟩
  · simp only [handleLoop_append, h1, hbadstep]
  · simpa using congrArg List.length h2
  · intro rest2
    simp only [handleLoop_append, h1, hbadstep]

/-- Witness for C4: with "ghost_fn" unresolvable in the sample
environment, the batch aborts right after the "Function not found"
output. -/
theorem C4_unresolved_aborts_batch_witness :
    ∃ preOuts db2 fx,
      handleLoop sampleEnv { name := "aibot", allow_bot_to_write_documents := true }
        "channel_1" "run_1"
        ([{ id := "c1", function_name := "calc_sum", function_arguments := "x" }]
          ++ { id := "c2", function_name := "ghost_fn", function_arguments := "x" }
            :: [{ id := "c3", function_name := "calc_sum", function_arguments := "x" }])
        { state := 0, savepoints := [] }
        = .aborted
            (preOuts ++ [{ tool_call_id := "c2", output := "Function not found" }])
            db2 fx
      ∧ preOuts.length = 1 := by
  obtain ⟨preOuts, db2, fx, h1, h2, -⟩ :=
    C4_unresolved_aborts_batch Nat sampleEnv
      { name := "aibot", allow_bot_to_write_documents := true } "channel_1" "run_1"
      [{ id := "c1", function_name := "calc_sum", function_arguments := "x" }]
      [{ id := "c3", function_name := "calc_sum", function_arguments := "x" }]
      { id := "c2", function_name := "ghost_fn", function_arguments := "x" }
      { state := 0, savepoints := [] } (by decide) (by decide)
  exact ⟨preOuts, db2, fx, h1, h2⟩

/-- Claim C5: when some call in the pause batch has an unresolvable
function name, `handle_requires_action` returns before reaching
`submit_tool_outputs`: its whole effect trace contains no
output-submission effect, so nothing is resubmitted and the run is not
resumed. -/
theorem C5_unresolved_never_submits (σ : Type) (env : Env σ) (bot : Bot)
    (channel_id : String) (current_run : Run) (data : RequiresActionData)
    (run_id : String) (db : DB σ) (pre rest : List ToolCall) (bad : ToolCall)
    (hsplit : data.tool_calls = pre ++ bad :: rest)
    (hpre : ∀ t ∈ pre, (env.getCachedDoc t.function_name).isSome)
    (hbad : env.getCachedDoc bad.function_name = none) :
    ((handle_requires_action env bot channel_id current_run data run_id db).2.2).filter
      Effect.isSubmit = [] := by
  obtain ⟨outs, db2, fx, h1, -⟩ :=
    handleLoop_completes env bot channel_id run_id pre db hpre
  have hbadstep : handleLoop env bot channel_id run_id (bad :: rest) db2
      = .aborted [{ tool_call_id := bad.id, output := "Function not found" }]
          db2 [] := by
    simp [handleLoop, hbad]
  have hfx := handleLoop_no_submit env bot channel_id run_id pre db
  rw [h1] at hfx
  simp only [LoopResult.fx] at hfx
  unfold handle_requires_action
  rw [hsplit]
  simp only [handleLoop_append, h1, hbadstep]
  simp [List.filter_append, hfx]

/-- Witness for C5: the sample batch containing "ghost_fn" produces a
trace with no submission effect. -/
theorem C5_unresolved_never_submits_witness :
    ((handle_requires_action sampleEnv
        { name := "aibot", allow_bot_to_write_documents := true } "channel_1"
        { id := "run_1", thread_id := "th_1" }
        { id := "run_1", thread_id := "th_1",
          tool_calls :=
            [{ id := "c1", function_name := "calc_sum", function_arguments := "x" },
             { id := "c2", function_name := "ghost_fn", function_arguments := "x" }] }
        "run_1" { state := 0, savepoints := [] }).2.2).filter Effect.isSubmit
      = [] :=
  C5_unresolved_never_submits Nat sampleEnv
    { name := "aibot", allow_bot_to_write_documents := true } "channel_1"
    { id := "run_1", thread_id := "th_1" }
    { id := "run_1", thread_id := "th_1",
      tool_calls :=
        [{ id := "c1", function_name := "calc_sum", function_arguments := "x" },
         { id := "c2", function_name := "ghost_fn", function_arguments := "x" }] }
    "run_1" { state := 0, savepoints := [] }
    [{ id := "c1", function_name := "calc_sum", function_arguments := "x" }] []
    { id := "c2", function_name := "ghost_fn", function_arguments := "x" }
    rfl (by decide) (by decide)

/-- Two environments that agree, call by call, on resolution and on
processing drive the dispatch loop to identical results. -/
theorem handleLoop_congr {σ : Type} (env env2 : Env σ) (bot : Bot)
    (channel_id run_id : String) (l : List ToolCall)
    (hag : ∀ t ∈ l,
      env.getCachedDoc t.function_name = env2.getCachedDoc t.function_name
      ∧ ∀ fn d, env.getCachedDoc t.function_name = some fn →
          processResolved env bot channel_id run_id t fn d
            = processResolved env2 bot channel_id run_id t fn d) :
    ∀ d, handleLoop env bot channel_id run_id l d
        = handleLoop env2 bot channel_id run_id l d := by
  induction l with
  | nil => intro d; rfl
  | cons t rest ih =>
    intro d
    obtain ⟨h1, h2⟩ := hag t (List.mem_cons_self t rest)
    have ihr := ih (fun x hx => hag x (List.mem_cons_of_mem _ hx))
    simp only [handleLoop, ← h1]
    cases hc : env.getCachedDoc t.function_name with
    | none => rfl
    | some fn =>
      simp only [← h2 fn d hc, ← ihr]

/-- Claim C6: for a pause event that is fully dispatched, the submission
references the run that produced the event: given the stream invariant
that `self.current_run` is the run carried by the event, the single
submission effect carries exactly the event's thread id and run id — in
particular the run id extracted from the event data equals the run id
used in the submission. -/
theorem C6_submission_same_run_and_thread (σ : Type) (env : Env σ) (bot : Bot)
    (channel_id : String) (current_run : Run) (ev : Event) (db : DB σ)
    (hev : ev.event = "thread.run.requires_action")
    (hrun : current_run.id = ev.data.id)
    (hthread : current_run.thread_id = ev.data.thread_id)
    (hres : ∀ t ∈ ev.data.tool_calls, (env.getCachedDoc t.function_name).isSome) :
    ∃ outs,
      ((on_event env bot channel_id current_run ev db).2.2).filter Effect.isSubmit
        = [Effect.submitOutputs ev.data.thread_id ev.data.id outs] := by
  obtain ⟨outs, db2, fx, h1, -⟩ :=
    handleLoop_completes env bot channel_id ev.data.id ev.data.tool_calls db hres
  have hfx := handleLoop_no_submit env bot channel_id ev.data.id ev.data.tool_calls db
  rw [h1] at hfx
  simp only [LoopResult.fx] at hfx
  refine ⟨outs, ?_⟩
  unfold on_event
  rw [if_pos hev]
  unfold handle_requires_action
  simp [h1, List.filter_append, hfx, Effect.isSubmit, hrun, hthread]

/-- Witness for C6: a concrete fully-dispatched pause event submits under
its own thread id and run id. -/
theorem C6_submission_same_run_and_thread_witness :
    ∃ outs,
      ((on_event sampleEnv { name := "aibot", allow_bot_to_write_documents := true }
          "channel_1" { id := "run_1", thread_id := "th_1" }
          { event := "thread.run.requires_action",
            data := { id := "run_1", thread_id := "th_1",
                      tool_calls := [{ id := "c1", function_name := "calc_sum",
                                       function_arguments := "x" }] } }
          { state := 0, savepoints := [] }).2.2).filter Effect.isSubmit
        = [Effect.submitOutputs "th_1" "run_1" outs] :=
  C6_submission_same_run_and_thread Nat sampleEnv
    { name := "aibot", allow_bot_to_write_documents := true } "channel_1"
    { id := "run_1", thread_id := "th_1" }
    { event := "thread.run.requires_action",
      data := { id := "run_1", thread_id := "th_1",
                tool_calls := [{ id := "c1", function_name := "calc_sum",
                                 function_arguments := "x" }] } }
    { state := 0, savepoints := [] } rfl rfl rfl (by decide)

/-- Claim C9: every custom-function invocation passes arguments in exactly
the mode of the function's descriptor — the parsed mapping as one
structured value iff `pass_parameters_as_json` — in the write-permitted
and write-isolated branches alike (the statement quantifies over the
bot's write flag). -/
theorem C9_argument_mode_honored (σ : Type) (env : Env σ) (bot : Bot)
    (channel_id run_id : String) (tool : ToolCall) (fn : RavenAIFunction)
    (args : Json) (db : DB σ)
    (htype : fn.type = "Custom Function")
    (hargs : env.jsonLoads tool.function_arguments = .ok args) :
    ((processResolved env bot channel_id run_id tool fn db).2.2).filter
      Effect.isInvoke
      = [Effect.invokeFn fn.function_path fn.pass_parameters_as_json args] := by
  rw [processResolved_fx_of_ok env bot channel_id run_id tool fn args db hargs]
  unfold runFunctionByType
  rw [if_pos htype]
  by_cases hw : bot.allow_bot_to_write_documents
  · simp [hw, Effect.isInvoke]
  · simp only [hw, if_false]
    cases (env.invokeCustom fn.function_path fn.pass_parameters_as_json args
        (dbSavepoint db (run_id ++ "_" ++ tool.id)).state).1
      <;> simp [Effect.isInvoke]

/-- Witness for C9: the same descriptor-dictated mode (`true`, pass as
JSON) is used whether the bot may write or not. -/
theorem C9_argument_mode_honored_witness :
    ((processResolved sampleEnv
        { name := "aibot", allow_bot_to_write_documents := true } "channel_1"
        "run_1" { id := "c1", function_name := "calc_sum", function_arguments := "x" }
        { type := "Custom Function", function_path := "app.calc_sum",
          pass_parameters_as_json := true, reference_doctype := "" }
        { state := 0, savepoints := [] }).2.2).filter Effect.isInvoke
      = [Effect.invokeFn "app.calc_sum" true (Json.obj [])]
    ∧ ((processResolved sampleEnv
        { name := "aibot", allow_bot_to_write_documents := false } "channel_1"
        "run_1" { id := "c1", function_name := "calc_sum", function_arguments := "x" }
        { type := "Custom Function", function_path := "app.calc_sum",
          pass_parameters_as_json := true, reference_doctype := "" }
        { state := 0, savepoints := [] }).2.2).filter Effect.isInvoke
      = [Effect.invokeFn "app.calc_sum" true (Json.obj [])] :=
  ⟨C9_argument_mode_honored Nat sampleEnv
      { name := "aibot", allow_bot_to_write_documents := true } "channel_1" "run_1"
      { id := "c1", function_name := "calc_sum", function_arguments := "x" }
      { type := "Custom Function", function_path := "app.calc_sum",
        pass_parameters_as_json := true, reference_doctype := "" }
      (Json.obj []) { state := 0, savepoints := [] } rfl rfl,
   C9_argument_mode_honored Nat sampleEnv
      { name := "aibot", allow_bot_to_write_documents := false } "channel_1" "run_1"
      { id := "c1", function_name := "calc_sum", function_arguments := "x" }
      { type := "Custom Function", function_path := "app.calc_sum",
        pass_parameters_as_json := true, reference_doctype := "" }
      (Json.obj []) { state := 0, savepoints := [] } rfl rfl⟩

/-- Claim C10: a resolved call whose payload parses but whose function
type is none of the five recognized kinds keeps `function_output = {}`,
so the appended output is the non-error serialization of the empty
mapping for that call id, with no effects and no database change. -/
theorem C10_unrecognized_type_empty_output (σ : Type) (env : Env σ) (bot : Bot)
    (channel_id run_id : String) (tool : ToolCall) (fn : RavenAIFunction)
    (args : Json) (db : DB σ)
    (hargs : env.jsonLoads tool.function_arguments = .ok args)
    (h1 : fn.type ≠ "Custom Function") (h2 : fn.type ≠ "Get Document")
    (h3 : fn.type ≠ "Get Multiple Documents") (h4 : fn.type ≠ "Delete Document")
    (h5 : fn.type ≠ "Delete Multiple Documents") :
    processResolved env bot channel_id run_id tool fn db
      = ({ tool_call_id := tool.id, output := jsonDumps (Json.obj []) }, db, [])
    ∧ jsonDumps (Json.obj []) = "\x7b\x7d" := by
  constructor
  · simp [processResolved, hargs, runFunctionByType, h1, h2, h3, h4, h5]
  · rfl

/-- Witness for C10: a "Send Email" typed function falls through every
branch and yields the serialized empty mapping. -/
theorem C10_unrecognized_type_empty_output_witness :
    processResolved sampleEnv
      { name := "aibot", allow_bot_to_write_documents := true } "channel_1"
      "run_1" { id := "c1", function_name := "send_email", function_arguments := "x" }
      { type := "Send Email", function_path := "app.send_email",
        pass_parameters_as_json := false, reference_doctype := "" }
      { state := 0, savepoints := [] }
      = ({ tool_call_id := "c1", output := jsonDumps (Json.obj []) },
         { state := 0, savepoints := [] }, [])
    ∧ jsonDumps (Json.obj []) = "\x7b\x7d" :=
  C10_unrecognized_type_empty_output Nat sampleEnv
    { name := "aibot", allow_bot_to_write_documents := true } "channel_1" "run_1"
    { id := "c1", function_name := "send_email", function_arguments := "x" }
    { type := "Send Email", function_path := "app.send_email",
      pass_parameters_as_json := false, reference_doctype := "" }
    (Json.obj []) { state := 0, savepoints := [] }
    rfl (by decide) (by decide) (by decide) (by decide) (by decide)

/-- Claim C3: per-call isolation. Consider a batch `pre ++ ck :: post` in
which every call resolves, and two worlds that process every other call
identically: in the first, call `ck` fails (argument parsing or
execution) with error `e`; in the second it succeeds with output
`succOut`; both leave the database in the same place. Then the first
world completes the whole batch with the `{message, error}` output for
`ck.id` in `ck`'s position, processing continues with the calls after it,
and the outputs of all other calls are literally the same lists `preOuts`
and `postOuts` as in the world where `ck` succeeded. -/
theorem C3_per_call_isolation (σ : Type) (env env2 : Env σ) (bot : Bot)
    (channel_id run_id : String) (pre post : List ToolCall) (ck : ToolCall)
    (fnk : RavenAIFunction) (e : String) (succOut : ToolOutput) (db : DB σ)
    (hagree : ∀ t ∈ pre ++ post,
      env.getCachedDoc t.function_name = env2.getCachedDoc t.function_name
      ∧ ∀ fn d, env.getCachedDoc t.function_name = some fn →
          processResolved env bot channel_id run_id t fn d
            = processResolved env2 bot channel_id run_id t fn d)
    (hres : ∀ t ∈ pre ++ post, (env.getCachedDoc t.function_name).isSome)
    (hkreg : env.getCachedDoc ck.function_name = some fnk)
    (hkreg2 : env2.getCachedDoc ck.function_name = some fnk)
    (hkA : ∀ d, (processResolved env bot channel_id run_id ck fnk d).1
        = errorOutput ck.id e)
    (hkB : ∀ d, (processResolved env2 bot channel_id run_id ck fnk d).1 = succOut)
    (hkdb : ∀ d, (processResolved env bot channel_id run_id ck fnk d).2.1
        = (processResolved env2 bot channel_id run_id ck fnk d).2.1) :
    ∃ preOuts postOuts dbA dbB fxA fxB,
      handleLoop env bot channel_id run_id (pre ++ ck :: post) db
        = .completed (preOuts ++ errorOutput ck.id e :: postOuts) dbA fxA
      ∧ handleLoop env2 bot channel_id run_id (pre ++ ck :: post) db
        = .completed (preOuts ++ succOut :: postOuts) dbB fxB
      ∧ preOuts.length = pre.length
      ∧ postOuts.length = post.length := by
  have hagPre : ∀ t ∈ pre, _ :=
    fun t ht => hagree t (List.mem_append_left post ht)
  have hagPost : ∀ t ∈ post, _ :=
    fun t ht => hagree t (List.mem_append_right pre ht)
  have hcongrPre := handleLoop_congr env env2 bot channel_id run_id pre hagPre
  have hcongrPost := handleLoop_congr env env2 bot channel_id run_id post hagPost
  obtain ⟨preOuts, dbk, fxPre, hPreA, hPreMap⟩ :=
    handleLoop_completes env bot channel_id run_id pre db
      (fun t ht => hres t (List.mem_append_left post ht))
  obtain ⟨postOuts, dbA, fxPost, hPostA, hPostMap⟩ :=
    handleLoop_completes env bot channel_id run_id post
      (processResolved env bot channel_id run_id ck fnk dbk).2.1
      (fun t ht => hres t (List.mem_append_right pre ht))
  have hPostB : handleLoop env2 bot channel_id run_id post
      (processResolved env2 bot channel_id run_id ck fnk dbk).2.1
      = .completed postOuts dbA fxPost := by
    rw [← hkdb dbk, ← hcongrPost]
    exact hPostA
  have hstepA : handleLoop env bot channel_id run_id (ck :: post) dbk
      = .completed (errorOutput ck.id e :: postOuts) dbA
          ((processResolved env bot channel_id run_id ck fnk dbk).2.2 ++ fxPost) := by
    simp only [handleLoop, hkreg, hPostA, hkA dbk]
  have hstepB : handleLoop env2 bot channel_id run_id (ck :: post) dbk
      = .completed (succOut :: postOuts) dbA
          ((processResolved env2 bot channel_id run_id ck fnk dbk).2.2 ++ fxPost) := by
    simp only [handleLoop, hkreg2, hPostB, hkB dbk]
  refine ⟨preOuts, postOuts, dbA, dbA,
    fxPre ++ ((processResolved env bot channel_id run_id ck fnk dbk).2.2 ++ fxPost),
    fxPre ++ ((processResolved env2 bot channel_id run_id ck fnk dbk).2.2 ++ fxPost),
    ?_, ?_, ?_, ?_⟩
  · simp only [handleLoop_append, hPreA, hstepA]
  · simp only [handleLoop_append, ← hcongrPre, hPreA, hstepB]
  · simpa using congrArg List.length hPreMap
  · simpa using congrArg List.length hPostMap

/-- A variant of the sample environment in which the custom function at
path "app.calc_bad" succeeds (returning 1) instead of raising; everything
else is untouched. -/
def sampleEnvFixed : Env Nat :=
  { sampleEnv with
    invokeCustom := fun p asJson args s =>
      if p = "app.calc_bad" then (.ok (.num 1), s)
      else sampleEnv.invokeCustom p asJson args s }

/-- Witness for C3: in a three-call batch whose middle call raises
("AttributeError") in the sample environment but succeeds in the fixed
one, both runs complete with identical first and third outputs. -/
theorem C3_per_call_isolation_witness :
    ∃ preOuts postOuts dbA dbB fxA fxB,
      handleLoop sampleEnv { name := "aibot", allow_bot_to_write_documents := true }
        "channel_1" "run_1"
        ([{ id := "c1", function_name := "calc_sum", function_arguments := "x" }]
          ++ { id := "c2", function_name := "calc_bad", function_arguments := "x" }
            :: [{ id := "c3", function_name := "get_emp", function_arguments := "x" }])
        { state := 0, savepoints := [] }
        = .completed (preOuts ++ errorOutput "c2" "AttributeError" :: postOuts) dbA fxA
      ∧ handleLoop sampleEnvFixed
          { name := "aibot", allow_bot_to_write_documents := true }
          "channel_1" "run_1"
          ([{ id := "c1", function_name := "calc_sum", function_arguments := "x" }]
            ++ { id := "c2", function_name := "calc_bad", function_arguments := "x" }
              :: [{ id := "c3", function_name := "get_emp", function_arguments := "x" }])
          { state := 0, savepoints := [] }
          = .completed (preOuts ++ { tool_call_id := "c2", output := "1" } :: postOuts)
              dbB fxB
      ∧ preOuts.length = 1
      ∧ postOuts.length = 1 := by
  refine C3_per_call_isolation Nat sampleEnv sampleEnvFixed
    { name := "aibot", allow_bot_to_write_documents := true } "channel_1" "run_1"
    [{ id := "c1", function_name := "calc_sum", function_arguments := "x" }]
    [{ id := "c3", function_name := "get_emp", function_arguments := "x" }]
    { id := "c2", function_name := "calc_bad", function_arguments := "x" }
    { type := "Custom Function", function_path := "app.calc_bad",
      pass_parameters_as_json := true, reference_doctype := "" }
    "AttributeError" { tool_call_id := "c2", output := "1" }
    { state := 0, savepoints := [] }
    ?_ (by decide) rfl rfl (fun d => rfl) (fun d => rfl) (fun d => rfl)
  intro t ht
  simp only [List.mem_append, List.mem_singleton] at ht
  rcases ht with rfl | rfl
  · refine ⟨rfl, ?_⟩
    intro fn d hfn
    have hf : some (RavenAIFunction.mk "Custom Function" "app.calc_sum" true "")
        = some fn := hfn
    cases hf
    rfl
  · refine ⟨rfl, ?_⟩
    intro fn d hfn
    have hf : some (RavenAIFunction.mk "Get Document" "" false "Employee")
        = some fn := hfn
    cases hf
    rfl

/-- An environment whose single custom function mutates the persisted
state (increments it) and then raises — the revert-on-exit scenario of
the spec's transactional-isolation policy. -/
def mutateRaiseEnv : Env Nat where
  getCachedDoc n :=
    if n = "update_task" then
      some { type := "Custom Function", function_path := "app.update_task",
             pass_parameters_as_json := false, reference_doctype := "" }
    else none
  jsonLoads _ := .ok (.obj [])
  invokeCustom p _ _ s :=
    if p = "app.update_task" then (.error "ValidationError", s + 1) else (.ok .null, s)
  get_document _ _ s := (.ok .null, s)
  get_documents _ _ s := (.ok .null, s)
  delete_document _ _ s := (.ok .null, s)
  delete_documents _ _ s := (.ok .null, s)

/-- Claim C1 fails on the code: with the write flag disabled, a custom
function that mutates persisted state and then raises keeps its mutation.
The handler calls `frappe.db.rollback(save_point=...)` only after a
normal return — there is no try/finally — so on the failure path the
checkpoint is never reverted: from state 0 the batch ends in state 1 with
the savepoint still pending, the trace holds the savepoint effect but no
rollback effect, and the call's output is the captured error. -/
theorem C1_failure_path_mutation_survives :
    handle_requires_action mutateRaiseEnv
      { name := "aibot", allow_bot_to_write_documents := false } "channel_1"
      { id := "run_1", thread_id := "th_1" }
      { id := "run_1", thread_id := "th_1",
        tool_calls := [{ id := "call_9", function_name := "update_task",
                         function_arguments := "x" }] }
      "run_1" { state := 0, savepoints := [] }
      = ([errorOutput "call_9" "ValidationError"],
         { state := 1, savepoints := [("run_1_call_9", 0)] },
         [Effect.savepoint "run_1_call_9",
          Effect.invokeFn "app.update_task" false (Json.obj []),
          Effect.submitOutputs "th_1" "run_1"
            [errorOutput "call_9" "ValidationError"],
          Effect.publish "Raven AI is thinking..." "channel_1" "aibot"])
    ∧ (1 : Nat) ≠ 0 :=
  ⟨rfl, by decide⟩

end Raven
